import Mathlib

/-!
Shallow embedding of the accelerometer training-tracker core (src/app.js):
the moving-average filter, the FFT cadence estimator, the automatic
threshold calibrator and the repetition detector, together with proofs of
the behavioural properties stated in the specification.

Modelling conventions.  JavaScript numbers are modelled as exact rationals.
The external numerical backends the code calls (fft.js `realTransform`,
`Math.cos`, `Math.sqrt`) are abstracted as function parameters: no verified
property depends on their values.  The JavaScript sentinels `-Infinity` /
`Infinity` used to initialise running max/min accumulators are modelled as
`Option ℚ` with `none` standing for the sentinel (so `Math.max(-Infinity, z)
= z` becomes the `none => z` branch).  Methods that mutate `this` become
functions returning the updated record; a method that both returns a value
and mutates returns a pair.
-/

namespace Accel

/-! ### MovingAverageFilter (src/app.js lines 13-36) -/

structure MovingAverageFilter where
  windowSize : ℕ
  window : List ℚ
deriving DecidableEq

def MovingAverageFilter.new (windowSize : ℕ := 5) : MovingAverageFilter :=
  { windowSize := windowSize, window := [] }

def MovingAverageFilter.getAverage (f : MovingAverageFilter) : ℚ :=
  if f.window.length = 0 then 0
  else f.window.sum / f.window.length

def MovingAverageFilter.addValue (f : MovingAverageFilter) (value : ℚ) :
    ℚ × MovingAverageFilter :=
  let pushed := f.window ++ [value]
  let trimmed := if f.windowSize < pushed.length then pushed.tail else pushed
  let f1 := { f with window := trimmed }
  (f1.getAverage, f1)

def MovingAverageFilter.reset (f : MovingAverageFilter) : MovingAverageFilter :=
  { f with window := [] }

def runFilter (f : MovingAverageFilter) (vs : List ℚ) : MovingAverageFilter :=
  vs.foldl (fun g v => (g.addValue v).2) f

/-! ### RepDetector (src/app.js lines 396-547) -/

inductive RepPhase where
  | IDLE
  | PULLING_UP
  | AT_TOP
  | LOWERING
deriving DecidableEq

structure DetectorThresholds where
  upwardAcceleration : ℚ
  downwardAcceleration : ℚ
  minRepDuration : ℚ
  maxRepDuration : ℚ
  stableThreshold : ℚ
  minAmplitude : ℚ
deriving DecidableEq

def defaultThresholds : DetectorThresholds :=
  { upwardAcceleration := 0.7
    downwardAcceleration := -0.5
    minRepDuration := 700
    maxRepDuration := 5000
    stableThreshold := 0.25
    minAmplitude := 0.9 }

structure RepData where
  maxZ : Option ℚ
  minZ : Option ℚ
  zValues : List ℚ
  duration : ℚ
deriving DecidableEq

def RepData.initial : RepData :=
  { maxZ := none, minZ := none, zValues := [], duration := 0 }

/-- The accumulation performed at the top of `processAcceleration` whenever
the state is not IDLE: push `z` and update the running max/min. -/
def RepData.push (rd : RepData) (z : ℚ) : RepData :=
  { rd with
    zValues := rd.zValues ++ [z]
    maxZ := some (match rd.maxZ with | none => z | some m => max m z)
    minZ := some (match rd.minZ with | none => z | some m => min m z) }

structure RepDetector where
  state : RepPhase
  repCount : ℕ
  currentRepStartTime : Option ℚ
  currentRepData : RepData
  thresholds : DetectorThresholds
  lastQuality : ℚ
  lastRepTime : ℚ
deriving DecidableEq

/-- `this.cooldownPeriod = 400`, set in the constructor and never changed. -/
def cooldownPeriod : ℚ := 400

def RepDetector.new (customThresholds : Option DetectorThresholds := none) : RepDetector :=
  { state := .IDLE
    repCount := 0
    currentRepStartTime := none
    currentRepData := RepData.initial
    thresholds := customThresholds.getD defaultThresholds
    lastQuality := 0
    lastRepTime := 0 }

def RepDetector.calculateVariance (values : List ℚ) : ℚ :=
  let mean := values.sum / values.length
  (values.map fun v => (v - mean) ^ 2).sum / values.length

def durationPenalty (duration : ℚ) : ℚ :=
  if 1000 < |duration - 2000| then 15 else if 500 < |duration - 2000| then 8 else 0

def amplitudePenalty (range : ℚ) : ℚ :=
  if range < 1 then 20 else if range < 1.5 then 10 else 0

def variancePenalty (zValues : List ℚ) : ℚ :=
  if 2 < zValues.length then
    if 1.5 < RepDetector.calculateVariance zValues then 15
    else if 0.8 < RepDetector.calculateVariance zValues then 8 else 0
  else 0

def RepDetector.calculateRepQuality (rd : RepData) : ℚ :=
  max 0 (min 100 (100 - durationPenalty rd.duration
    - amplitudePenalty (rd.maxZ.getD 0 - rd.minZ.getD 0)
    - variancePenalty rd.zValues))

def RepDetector.completeRep (d : RepDetector) (timestamp : ℚ) : RepDetector :=
  { d with
    repCount := d.repCount + 1
    lastRepTime := timestamp
    lastQuality := RepDetector.calculateRepQuality d.currentRepData
    currentRepData := RepData.initial }

/-- The JS method also returns `{state, repCount, quality}`; that object is
the projection `(d.state, d.repCount, d.lastQuality)` of the updated
detector, so only the updated detector is returned here. -/
def RepDetector.processAcceleration (d0 : RepDetector) (z timestamp : ℚ) : RepDetector :=
  let d := if d0.state = .IDLE then d0
           else { d0 with currentRepData := d0.currentRepData.push z }
  match d.state with
  | .IDLE =>
      if d.thresholds.upwardAcceleration < z then
        { d with state := .PULLING_UP
                 currentRepStartTime := some timestamp
                 currentRepData :=
                   { maxZ := some z, minZ := some z, zValues := [z], duration := 0 } }
      else d
  | .PULLING_UP =>
      if z < d.thresholds.stableThreshold ∧ d.thresholds.downwardAcceleration < z then
        { d with state := .AT_TOP }
      else d
  | .AT_TOP =>
      if z < d.thresholds.downwardAcceleration then { d with state := .LOWERING }
      else if d.thresholds.upwardAcceleration < z then { d with state := .PULLING_UP }
      else d
  | .LOWERING =>
      if d.thresholds.downwardAcceleration < z ∧ z < d.thresholds.upwardAcceleration then
        let d1 := { d with currentRepData :=
          { d.currentRepData with duration := timestamp - d.currentRepStartTime.getD 0 } }
        let timeSinceLastRep := timestamp - d1.lastRepTime
        let amplitude := d1.currentRepData.maxZ.getD 0 - d1.currentRepData.minZ.getD 0
        let d2 :=
          if d1.thresholds.minRepDuration ≤ d1.currentRepData.duration ∧
             d1.currentRepData.duration ≤ d1.thresholds.maxRepDuration ∧
             d1.thresholds.minAmplitude ≤ amplitude ∧
             cooldownPeriod ≤ timeSinceLastRep then
            d1.completeRep timestamp
          else d1
        { d2 with state := .IDLE }
      else d

def runDetector (d : RepDetector) (trace : List (ℚ × ℚ)) : RepDetector :=
  trace.foldl (fun e p => e.processAcceleration p.1 p.2) d

/-! ### Penalty bounds (shared helper lemmas) -/

lemma durationPenalty_nonneg (x : ℚ) : 0 ≤ durationPenalty x := by
  unfold durationPenalty; split_ifs <;> norm_num

lemma durationPenalty_le (x : ℚ) : durationPenalty x ≤ 15 := by
  unfold durationPenalty; split_ifs <;> norm_num

lemma amplitudePenalty_nonneg (x : ℚ) : 0 ≤ amplitudePenalty x := by
  unfold amplitudePenalty; split_ifs <;> norm_num

lemma amplitudePenalty_le (x : ℚ) : amplitudePenalty x ≤ 20 := by
  unfold amplitudePenalty; split_ifs <;> norm_num

lemma variancePenalty_nonneg (xs : List ℚ) : 0 ≤ variancePenalty xs := by
  unfold variancePenalty; split_ifs <;> norm_num

lemma variancePenalty_le (xs : List ℚ) : variancePenalty xs ≤ 15 := by
  unfold variancePenalty; split_ifs <;> norm_num

lemma quality_raw_bounds (rd : RepData) :
    50 ≤ 100 - durationPenalty rd.duration
      - amplitudePenalty (rd.maxZ.getD 0 - rd.minZ.getD 0) - variancePenalty rd.zValues ∧
    100 - durationPenalty rd.duration
      - amplitudePenalty (rd.maxZ.getD 0 - rd.minZ.getD 0) - variancePenalty rd.zValues ≤ 100 := by
  have h1 := durationPenalty_nonneg rd.duration
  have h2 := durationPenalty_le rd.duration
  have h3 := amplitudePenalty_nonneg (rd.maxZ.getD 0 - rd.minZ.getD 0)
  have h4 := amplitudePenalty_le (rd.maxZ.getD 0 - rd.minZ.getD 0)
  have h5 := variancePenalty_nonneg rd.zValues
  have h6 := variancePenalty_le rd.zValues
  constructor <;> linarith

lemma calculateRepQuality_eq_raw (rd : RepData) :
    RepDetector.calculateRepQuality rd =
      100 - durationPenalty rd.duration
        - amplitudePenalty (rd.maxZ.getD 0 - rd.minZ.getD 0) - variancePenalty rd.zValues := by
  obtain ⟨hlo, hhi⟩ := quality_raw_bounds rd
  unfold RepDetector.calculateRepQuality
  rw [min_eq_right hhi, max_eq_right (by linarith)]

/-- Claim C2: for every completed repetition the quality score equals 100 minus
the duration penalty (15 if the duration deviates from the 2000 ms ideal by
more than 1000 ms, else 8 if by more than 500 ms), minus the amplitude penalty
(20 if maxZ - minZ is below 1.0, else 10 if below 1.5), minus the variance
penalty applied only when more than 2 samples were accumulated (15 if the
population variance of the accumulated values exceeds 1.5, else 8 if it
exceeds 0.8), and the result always lies within [0, 100] inclusive. -/
theorem calculateRepQuality_formula_and_bounds (rd : RepData) :
    RepDetector.calculateRepQuality rd =
      100
      - (if 1000 < |rd.duration - 2000| then 15 else if 500 < |rd.duration - 2000| then 8 else 0)
      - (if rd.maxZ.getD 0 - rd.minZ.getD 0 < 1 then 20
         else if rd.maxZ.getD 0 - rd.minZ.getD 0 < 1.5 then 10 else 0)
      - (if 2 < rd.zValues.length then
           (if 1.5 < (rd.zValues.map fun v =>
                 (v - rd.zValues.sum / (rd.zValues.length : ℚ)) ^ 2).sum / (rd.zValues.length : ℚ)
            then (15 : ℚ)
            else if 0.8 < (rd.zValues.map fun v =>
                 (v - rd.zValues.sum / (rd.zValues.length : ℚ)) ^ 2).sum / (rd.zValues.length : ℚ)
            then 8
            else 0)
         else 0)
    ∧ 0 ≤ RepDetector.calculateRepQuality rd ∧ RepDetector.calculateRepQuality rd ≤ 100 := by
  obtain ⟨hlo, hhi⟩ := quality_raw_bounds rd
  have heq := calculateRepQuality_eq_raw rd
  refine ⟨?_, by linarith, by linarith⟩
  rw [heq]
  rfl

/-- Claim C10: the three penalty categories deduct at most 15 + 20 + 15 = 50
points from the starting score of 100, so the lower clamp at 0 is never
reached (the score equals the upper clamp alone) and the returned quality of
every completed repetition lies in [50, 100]. -/
theorem calculateRepQuality_at_least_fifty (rd : RepData) :
    50 ≤ RepDetector.calculateRepQuality rd ∧ RepDetector.calculateRepQuality rd ≤ 100
    ∧ RepDetector.calculateRepQuality rd =
        min 100 (100 - durationPenalty rd.duration
          - amplitudePenalty (rd.maxZ.getD 0 - rd.minZ.getD 0) - variancePenalty rd.zValues) := by
  obtain ⟨hlo, hhi⟩ := quality_raw_bounds rd
  have heq := calculateRepQuality_eq_raw rd
  refine ⟨by linarith, by linarith, ?_⟩
  rw [heq, min_eq_right hhi]

/-! ### C4: window bound and mean of the moving-average filter -/

/-- The suffix of the last `n` elements of a list. -/
def lastN (n : ℕ) (xs : List ℚ) : List ℚ := xs.drop (xs.length - n)

/-- Arithmetic mean of a list, 0 for the empty list (as `getAverage`). -/
def meanQ (xs : List ℚ) : ℚ := if xs.length = 0 then 0 else xs.sum / xs.length

lemma lastN_length (n : ℕ) (xs : List ℚ) : (lastN n xs).length = min n xs.length := by
  simp only [lastN, List.length_drop]
  omega

lemma runFilter_windowSize (f : MovingAverageFilter) (vs : List ℚ) :
    (runFilter f vs).windowSize = f.windowSize := by
  induction vs generalizing f with
  | nil => rfl
  | cons v vs ih =>
      show (runFilter ((f.addValue v).2) vs).windowSize = f.windowSize
      rw [ih]
      rfl

lemma runFilter_append (f : MovingAverageFilter) (xs : List ℚ) (x : ℚ) :
    runFilter f (xs ++ [x]) = ((runFilter f xs).addValue x).2 := by
  simp [runFilter, List.foldl_append]

lemma addValue_window (f : MovingAverageFilter) (x : ℚ) :
    (f.addValue x).2.window =
      if f.windowSize < f.window.length + 1 then (f.window ++ [x]).tail
      else f.window ++ [x] := by
  simp [MovingAverageFilter.addValue]

lemma tail_lastN_append (ws : ℕ) (xs : List ℚ) (x : ℚ) (hws : ws ≤ xs.length) :
    (lastN ws xs ++ [x]).tail = lastN ws (xs ++ [x]) := by
  rcases Nat.eq_zero_or_pos ws with h0 | hpos
  · subst h0
    simp [lastN]
  · have hne : lastN ws xs ≠ [] := by
      have := lastN_length ws xs
      intro hnil
      rw [hnil] at this
      simp at this
      omega
    rw [List.tail_append_singleton_of_ne_nil hne]
    unfold lastN
    rw [List.tail_drop]
    simp only [List.length_append, List.length_cons, List.length_nil]
    rw [List.drop_append_of_le_length (by omega)]
    have harith : xs.length - ws + 1 = xs.length + 1 - ws := by omega
    rw [harith]

lemma runFilter_window (ws : ℕ) (vs : List ℚ) :
    (runFilter (MovingAverageFilter.new ws) vs).window = lastN (min vs.length ws) vs := by
  induction vs using List.reverseRecOn with
  | nil => simp [runFilter, MovingAverageFilter.new, lastN]
  | append_singleton xs x ih =>
      rw [runFilter_append, addValue_window,
        runFilter_windowSize (MovingAverageFilter.new ws) xs, ih, lastN_length]
      have hnew : (MovingAverageFilter.new ws).windowSize = ws := rfl
      rw [hnew]
      simp only [List.length_append, List.length_cons, List.length_nil]
      rcases le_or_lt ws xs.length with hcase | hcase
      · have hmin : min xs.length ws = ws := by omega
        have hmin2 : min (xs.length + 1) ws = ws := by omega
        have hcond : ws < min (min xs.length ws) xs.length + 1 := by omega
        rw [if_pos hcond, hmin, hmin2, tail_lastN_append ws xs x hcase]
      · have hmin : min xs.length ws = xs.length := by omega
        have hmin2 : min (xs.length + 1) ws = xs.length + 1 := by omega
        have hcond : ¬ ws < min (min xs.length ws) xs.length + 1 := by omega
        rw [if_neg hcond, hmin, hmin2]
        unfold lastN
        simp

/-- Claim C4: after any sequence of `addValue` calls on a freshly constructed
(or reset) `MovingAverageFilter`, the internal window holds exactly
`min n windowSize` values — the suffix of the inputs, oldest evicted first —
and never exceeds `windowSize`; every `addValue` call returns the
arithmetic mean of exactly the last `min n windowSize` inputs, and the mean
of an empty window is defined as 0. -/
theorem movingAverage_window_and_mean (ws : ℕ) (vs : List ℚ) :
    (runFilter (MovingAverageFilter.new ws) vs).window = lastN (min vs.length ws) vs
    ∧ (runFilter (MovingAverageFilter.new ws) vs).window.length = min vs.length ws
    ∧ (runFilter (MovingAverageFilter.new ws) vs).window.length ≤ ws
    ∧ (∀ v : ℚ, ((runFilter (MovingAverageFilter.new ws) vs).addValue v).1
        = meanQ (lastN (min (vs.length + 1) ws) (vs ++ [v])))
    ∧ meanQ [] = 0
    ∧ (∀ f : MovingAverageFilter, f.reset.getAverage = 0) := by
  have hwin := runFilter_window ws vs
  have hlen : (runFilter (MovingAverageFilter.new ws) vs).window.length = min vs.length ws := by
    rw [hwin, lastN_length]; omega
  refine ⟨hwin, hlen, by omega, ?_, rfl, fun f => rfl⟩
  intro v
  have hstep : ((runFilter (MovingAverageFilter.new ws) vs).addValue v).2
      = runFilter (MovingAverageFilter.new ws) (vs ++ [v]) := (runFilter_append _ _ _).symm
  have hnext := runFilter_window ws (vs ++ [v])
  have hval : ((runFilter (MovingAverageFilter.new ws) vs).addValue v).1
      = ((runFilter (MovingAverageFilter.new ws) vs).addValue v).2.getAverage := rfl
  have hga : ∀ g : MovingAverageFilter, g.getAverage = meanQ g.window := fun g => rfl
  rw [hval, hstep, hga, hnext]
  simp [List.length_append]

/-! ### C1, C6: repetition counting and the accumulator on invalid completions -/

lemma processAcceleration_IDLE (rc : ℕ) (cst : Option ℚ) (crd : RepData)
    (th : DetectorThresholds) (lq lrt z t : ℚ) :
    (RepDetector.mk RepPhase.IDLE rc cst crd th lq lrt).processAcceleration z t =
      if th.upwardAcceleration < z then
        RepDetector.mk RepPhase.PULLING_UP rc (some t)
          { maxZ := some z, minZ := some z, zValues := [z], duration := 0 } th lq lrt
      else RepDetector.mk RepPhase.IDLE rc cst crd th lq lrt := rfl

lemma processAcceleration_PULLING_UP (rc : ℕ) (cst : Option ℚ) (crd : RepData)
    (th : DetectorThresholds) (lq lrt z t : ℚ) :
    (RepDetector.mk RepPhase.PULLING_UP rc cst crd th lq lrt).processAcceleration z t =
      if z < th.stableThreshold ∧ th.downwardAcceleration < z then
        RepDetector.mk RepPhase.AT_TOP rc cst (crd.push z) th lq lrt
      else RepDetector.mk RepPhase.PULLING_UP rc cst (crd.push z) th lq lrt := rfl

lemma processAcceleration_AT_TOP (rc : ℕ) (cst : Option ℚ) (crd : RepData)
    (th : DetectorThresholds) (lq lrt z t : ℚ) :
    (RepDetector.mk RepPhase.AT_TOP rc cst crd th lq lrt).processAcceleration z t =
      if z < th.downwardAcceleration then
        RepDetector.mk RepPhase.LOWERING rc cst (crd.push z) th lq lrt
      else if th.upwardAcceleration < z then
        RepDetector.mk RepPhase.PULLING_UP rc cst (crd.push z) th lq lrt
      else RepDetector.mk RepPhase.AT_TOP rc cst (crd.push z) th lq lrt := rfl

lemma processAcceleration_LOWERING (rc : ℕ) (cst : Option ℚ) (crd : RepData)
    (th : DetectorThresholds) (lq lrt z t : ℚ) :
    (RepDetector.mk RepPhase.LOWERING rc cst crd th lq lrt).processAcceleration z t =
      if th.downwardAcceleration < z ∧ z < th.upwardAcceleration then
        if th.minRepDuration ≤ t - cst.getD 0 ∧ t - cst.getD 0 ≤ th.maxRepDuration ∧
           th.minAmplitude ≤ (crd.push z).maxZ.getD 0 - (crd.push z).minZ.getD 0 ∧
           cooldownPeriod ≤ t - lrt then
          RepDetector.mk RepPhase.IDLE (rc + 1) cst RepData.initial th
            (RepDetector.calculateRepQuality
              { crd.push z with duration := t - cst.getD 0 }) t
        else RepDetector.mk RepPhase.IDLE rc cst
          { crd.push z with duration := t - cst.getD 0 } th lq lrt
      else RepDetector.mk RepPhase.LOWERING rc cst (crd.push z) th lq lrt := by
  by_cases h1 : th.downwardAcceleration < z ∧ z < th.upwardAcceleration
  · by_cases h2 : th.minRepDuration ≤ t - cst.getD 0 ∧ t - cst.getD 0 ≤ th.maxRepDuration ∧
        th.minAmplitude ≤ (crd.push z).maxZ.getD 0 - (crd.push z).minZ.getD 0 ∧
        cooldownPeriod ≤ t - lrt
    · simp only [RepDetector.processAcceleration, RepDetector.completeRep]
      rw [if_neg (by decide : ¬ (RepPhase.LOWERING = RepPhase.IDLE))]
      dsimp only
      simp only [if_pos h1, if_pos h2]
    · simp only [RepDetector.processAcceleration]
      rw [if_neg (by decide : ¬ (RepPhase.LOWERING = RepPhase.IDLE))]
      dsimp only
      simp only [if_pos h1, if_neg h2]
  · simp only [RepDetector.processAcceleration]
    rw [if_neg (by decide : ¬ (RepPhase.LOWERING = RepPhase.IDLE))]
    dsimp only
    simp only [if_neg h1]

lemma processAcceleration_repCount_cases (d : RepDetector) (z t : ℚ) :
    (d.processAcceleration z t).repCount = d.repCount
    ∨ ((d.processAcceleration z t).repCount = d.repCount + 1
        ∧ d.state = RepPhase.LOWERING
        ∧ (d.processAcceleration z t).state = RepPhase.IDLE
        ∧ d.thresholds.minRepDuration ≤ t - d.currentRepStartTime.getD 0
        ∧ t - d.currentRepStartTime.getD 0 ≤ d.thresholds.maxRepDuration
        ∧ d.thresholds.minAmplitude ≤
            (d.currentRepData.push z).maxZ.getD 0 - (d.currentRepData.push z).minZ.getD 0
        ∧ 400 ≤ t - d.lastRepTime) := by
  obtain ⟨st, rc, cst, crd, th, lq, lrt⟩ := d
  cases st with
  | IDLE =>
      left
      rw [processAcceleration_IDLE]
      split_ifs <;> rfl
  | PULLING_UP =>
      left
      rw [processAcceleration_PULLING_UP]
      split_ifs <;> rfl
  | AT_TOP =>
      left
      rw [processAcceleration_AT_TOP]
      split_ifs <;> rfl
  | LOWERING =>
      rw [processAcceleration_LOWERING]
      split_ifs with h1 h2
      · right
        obtain ⟨g1, g2, g3, g4⟩ := h2
        refine ⟨rfl, rfl, rfl, g1, g2, g3, ?_⟩
        simpa [cooldownPeriod] using g4
      · left; rfl
      · left; rfl

lemma new_eq_mk : RepDetector.new none =
    RepDetector.mk RepPhase.IDLE 0 none RepData.initial defaultThresholds 0 0 := rfl

lemma processAcceleration_zero_idle (t : ℚ) :
    (RepDetector.new none).processAcceleration 0 t = RepDetector.new none := by
  rw [new_eq_mk, processAcceleration_IDLE,
    if_neg (by norm_num [defaultThresholds] : ¬ defaultThresholds.upwardAcceleration < (0 : ℚ))]

lemma runDetector_zeros (ts : List ℚ) :
    runDetector (RepDetector.new none) (ts.map fun t2 => ((0 : ℚ), t2)) =
      RepDetector.new none := by
  induction ts with
  | nil => rfl
  | cons t ts ih =>
      show runDetector ((RepDetector.new none).processAcceleration 0 t) (ts.map _) = _
      rw [processAcceleration_zero_idle, ih]

/-- Claim C1: for every input fed to `processAcceleration`, `repCount` is
monotonically non-decreasing, and it increments (by exactly 1) only on a
LOWERING to IDLE transition in which all three validity gates hold
simultaneously — `minRepDuration ≤ duration ≤ maxRepDuration`, amplitude
(maxZ - minZ over the accumulated samples) at least `minAmplitude`, and
`timestamp - lastRepTime` at least the 400 ms cooldown; in particular a
trace of all-zero samples on a fresh default detector never leaves IDLE and
never increments `repCount`. -/
theorem repCount_monotone_and_gated (d : RepDetector) (z t : ℚ) :
    d.repCount ≤ (d.processAcceleration z t).repCount
    ∧ ((d.processAcceleration z t).repCount ≠ d.repCount →
        (d.processAcceleration z t).repCount = d.repCount + 1
        ∧ d.state = RepPhase.LOWERING
        ∧ (d.processAcceleration z t).state = RepPhase.IDLE
        ∧ d.thresholds.minRepDuration ≤ t - d.currentRepStartTime.getD 0
        ∧ t - d.currentRepStartTime.getD 0 ≤ d.thresholds.maxRepDuration
        ∧ d.thresholds.minAmplitude ≤
            (d.currentRepData.push z).maxZ.getD 0 - (d.currentRepData.push z).minZ.getD 0
        ∧ 400 ≤ t - d.lastRepTime)
    ∧ (∀ ts : List ℚ,
        (runDetector (RepDetector.new none) (ts.map fun t2 => ((0 : ℚ), t2))).state
          = RepPhase.IDLE
        ∧ (runDetector (RepDetector.new none) (ts.map fun t2 => ((0 : ℚ), t2))).repCount
          = 0) := by
  refine ⟨?_, ?_, ?_⟩
  · rcases processAcceleration_repCount_cases d z t with h | h
    · omega
    · omega
  · intro hne
    rcases processAcceleration_repCount_cases d z t with h | h
    · exact absurd h hne
    · exact h
  · intro ts
    rw [runDetector_zeros]
    exact ⟨rfl, rfl⟩

/-- The four-sample trace `1, 0, -1, 0` at 100 ms steps drives the default
detector through PULLING_UP, AT_TOP, LOWERING and back to IDLE, but the
300 ms duration fails the 700 ms minimum, so the cycle is discarded. -/
def invalidTrace : List (ℚ × ℚ) := [(1, 0), (0, 100), (-1, 200), (0, 300)]

/-- Claim C6 counterexample: on the invalid LOWERING to IDLE transition the
accumulator `currentRepData` is NOT cleared back to its empty initial state:
it retains max, min, the accumulated samples and the just-computed duration
(`repCount` and `lastRepTime` are indeed unaffected). -/
theorem invalid_rep_accumulator_not_cleared :
    (runDetector (RepDetector.new none) (invalidTrace.take 3)).state = RepPhase.LOWERING
    ∧ (runDetector (RepDetector.new none) invalidTrace).state = RepPhase.IDLE
    ∧ (runDetector (RepDetector.new none) invalidTrace).repCount = 0
    ∧ (runDetector (RepDetector.new none) invalidTrace).lastRepTime = 0
    ∧ (runDetector (RepDetector.new none) invalidTrace).currentRepData =
        { maxZ := some 1, minZ := some (-1), zValues := [1, 0, -1, 0], duration := 300 }
    ∧ (runDetector (RepDetector.new none) invalidTrace).currentRepData ≠ RepData.initial := by
  have h1 : (RepDetector.new none).processAcceleration 1 0 =
      RepDetector.mk RepPhase.PULLING_UP 0 (some 0)
        { maxZ := some 1, minZ := some 1, zValues := [1], duration := 0 }
        defaultThresholds 0 0 := by
    rw [new_eq_mk, processAcceleration_IDLE,
      if_pos (by norm_num [defaultThresholds] : defaultThresholds.upwardAcceleration < (1 : ℚ))]
  have h2 : (RepDetector.mk RepPhase.PULLING_UP 0 (some 0)
        { maxZ := some 1, minZ := some 1, zValues := [1], duration := 0 }
        defaultThresholds 0 0).processAcceleration 0 100 =
      RepDetector.mk RepPhase.AT_TOP 0 (some 0)
        { maxZ := some 1, minZ := some 0, zValues := [1, 0], duration := 0 }
        defaultThresholds 0 0 := by
    rw [processAcceleration_PULLING_UP, if_pos (by constructor <;> norm_num [defaultThresholds])]
    simp [RepData.push, max_def, min_def]
  have h3 : (RepDetector.mk RepPhase.AT_TOP 0 (some 0)
        { maxZ := some 1, minZ := some 0, zValues := [1, 0], duration := 0 }
        defaultThresholds 0 0).processAcceleration (-1) 200 =
      RepDetector.mk RepPhase.LOWERING 0 (some 0)
        { maxZ := some 1, minZ := some (-1), zValues := [1, 0, -1], duration := 0 }
        defaultThresholds 0 0 := by
    rw [processAcceleration_AT_TOP, if_pos (by norm_num [defaultThresholds])]
    simp [RepData.push, max_def, min_def]
  have h4 : (RepDetector.mk RepPhase.LOWERING 0 (some 0)
        { maxZ := some 1, minZ := some (-1), zValues := [1, 0, -1], duration := 0 }
        defaultThresholds 0 0).processAcceleration 0 300 =
      RepDetector.mk RepPhase.IDLE 0 (some 0)
        { maxZ := some 1, minZ := some (-1), zValues := [1, 0, -1, 0], duration := 300 }
        defaultThresholds 0 0 := by
    rw [processAcceleration_LOWERING, if_pos (by constructor <;> norm_num [defaultThresholds]),
      if_neg (by norm_num [defaultThresholds, RepData.push])]
    simp [RepData.push, max_def, min_def]
  have hrun3 : runDetector (RepDetector.new none) (invalidTrace.take 3) =
      RepDetector.mk RepPhase.LOWERING 0 (some 0)
        { maxZ := some 1, minZ := some (-1), zValues := [1, 0, -1], duration := 0 }
        defaultThresholds 0 0 := by
    show ((((RepDetector.new none).processAcceleration 1 0).processAcceleration 0
        100).processAcceleration (-1) 200) = _
    rw [h1, h2, h3]
  have hrun4 : runDetector (RepDetector.new none) invalidTrace =
      RepDetector.mk RepPhase.IDLE 0 (some 0)
        { maxZ := some 1, minZ := some (-1), zValues := [1, 0, -1, 0], duration := 300 }
        defaultThresholds 0 0 := by
    show (((((RepDetector.new none).processAcceleration 1 0).processAcceleration 0
        100).processAcceleration (-1) 200).processAcceleration 0 300) = _
    rw [h1, h2, h3, h4]
  refine ⟨by rw [hrun3], by rw [hrun4], by rw [hrun4], by rw [hrun4], by rw [hrun4], ?_⟩
  rw [hrun4]
  simp [RepData.initial]

/-- Claim C6 (amended): on a LOWERING to IDLE transition that fails at least
one validity gate, the detector returns to IDLE silently with `repCount` and
`lastRepTime` unaffected, but the accumulator is NOT cleared on that
transition: it keeps the pushed samples, max/min, and the just-computed
duration (it is only overwritten when the next repetition starts). -/
theorem invalid_lowering_keeps_accumulator (d : RepDetector) (z t : ℚ)
    (hst : d.state = RepPhase.LOWERING)
    (hband : d.thresholds.downwardAcceleration < z ∧ z < d.thresholds.upwardAcceleration)
    (hgates : ¬ (d.thresholds.minRepDuration ≤ t - d.currentRepStartTime.getD 0
        ∧ t - d.currentRepStartTime.getD 0 ≤ d.thresholds.maxRepDuration
        ∧ d.thresholds.minAmplitude ≤
            (d.currentRepData.push z).maxZ.getD 0 - (d.currentRepData.push z).minZ.getD 0
        ∧ cooldownPeriod ≤ t - d.lastRepTime)) :
    (d.processAcceleration z t).state = RepPhase.IDLE
    ∧ (d.processAcceleration z t).currentRepData =
        { d.currentRepData.push z with duration := t - d.currentRepStartTime.getD 0 }
    ∧ (d.processAcceleration z t).repCount = d.repCount
    ∧ (d.processAcceleration z t).lastRepTime = d.lastRepTime := by
  obtain ⟨st, rc, cst, crd, th, lq, lrt⟩ := d
  dsimp only at hst hband hgates ⊢
  subst hst
  rw [processAcceleration_LOWERING, if_pos hband, if_neg hgates]
  exact ⟨rfl, rfl, rfl, rfl⟩

/-- Witness for the amended C6 at a concrete invalid completion (the state the
default detector reaches after the samples 1, 0, -1 at 0/100/200 ms, hit with
sample 0 at 300 ms — a 300 ms cycle, failing the 700 ms minimum duration). -/
theorem invalid_lowering_keeps_accumulator_witness :
    ((RepDetector.mk RepPhase.LOWERING 0 (some 0)
        { maxZ := some 1, minZ := some (-1), zValues := [1, 0, -1], duration := 0 }
        defaultThresholds 0 0).processAcceleration 0 300).state = RepPhase.IDLE
    ∧ ((RepDetector.mk RepPhase.LOWERING 0 (some 0)
        { maxZ := some 1, minZ := some (-1), zValues := [1, 0, -1], duration := 0 }
        defaultThresholds 0 0).processAcceleration 0 300).repCount = 0 :=
  ⟨(invalid_lowering_keeps_accumulator
      (RepDetector.mk RepPhase.LOWERING 0 (some 0)
        { maxZ := some 1, minZ := some (-1), zValues := [1, 0, -1], duration := 0 }
        defaultThresholds 0 0) 0 300
      rfl (by constructor <;> norm_num [defaultThresholds])
      (by norm_num [defaultThresholds, RepData.push])).1,
   (invalid_lowering_keeps_accumulator
      (RepDetector.mk RepPhase.LOWERING 0 (some 0)
        { maxZ := some 1, minZ := some (-1), zValues := [1, 0, -1], duration := 0 }
        defaultThresholds 0 0) 0 300
      rfl (by constructor <;> norm_num [defaultThresholds])
      (by norm_num [defaultThresholds, RepData.push])).2.2.1⟩

/-! ### AutoCalibrator (src/app.js lines 239-393)

`Math.sqrt` is abstracted as a function parameter `sq : ℚ → ℚ`: no claim
about the calibrator depends on its values. -/

inductive CalibPhase where
  | IDLE
  | MOVING
  | COOLDOWN
deriving DecidableEq

structure CalibRepRecord where
  maxZ : ℚ
  minZ : ℚ
  amplitude : ℚ
  duration : ℚ
  variance : ℚ
deriving DecidableEq

structure CalibRepData where
  maxZ : Option ℚ
  minZ : Option ℚ
  zValues : List ℚ
  startTime : Option ℚ
deriving DecidableEq

def CalibRepData.initial : CalibRepData :=
  { maxZ := none, minZ := none, zValues := [], startTime := none }

def CalibRepData.push (rd : CalibRepData) (z : ℚ) : CalibRepData :=
  { rd with
    zValues := rd.zValues ++ [z]
    maxZ := some (match rd.maxZ with | none => z | some m => max m z)
    minZ := some (match rd.minZ with | none => z | some m => min m z) }

structure AutoCalibrator where
  repsData : List CalibRepRecord
  isCalibrating : Bool
  repCount : ℕ
  targetReps : ℕ
  currentRepData : CalibRepData
  state : CalibPhase
  lastTransitionTime : ℚ
deriving DecidableEq

def CALIBRATION_TARGET_REPS : ℕ := 5

def AutoCalibrator.new : AutoCalibrator :=
  { repsData := [], isCalibrating := false, repCount := 0
    targetReps := CALIBRATION_TARGET_REPS, currentRepData := CalibRepData.initial
    state := .IDLE, lastTransitionTime := 0 }

/-- `startCalibration` re-arms the calibrator (`Date.now()` passed as `now`). -/
def AutoCalibrator.startCalibration (c : AutoCalibrator) (now : ℚ) : AutoCalibrator :=
  { c with isCalibrating := true, repsData := [], repCount := 0
           currentRepData := CalibRepData.initial, state := .IDLE
           lastTransitionTime := now }

def AutoCalibrator.calculateVariance (values : List ℚ) : ℚ :=
  if values.length = 0 then 0
  else (values.map fun v => (v - values.sum / values.length) ^ 2).sum / values.length

/-- `values.reduce((a, b) => a + b, 0) / values.length`. -/
def listAvg (xs : List ℚ) : ℚ := xs.sum / xs.length

/-- `values.reduce((sum, val) => sum + Math.pow(val - avg, 2), 0) / values.length`,
the population variance whose square root the source takes for `stdMaxZ` and
`stdMinZ`. -/
def listPopVar (xs : List ℚ) : ℚ := (xs.map fun v => (v - listAvg xs) ^ 2).sum / xs.length

structure CalibStats where
  repsDetected : ℕ
  avgMaxZ : ℚ
  avgMinZ : ℚ
  avgAmplitude : ℚ
deriving DecidableEq

structure CalibResult where
  success : Bool
  thresholds : DetectorThresholds
  stats : CalibStats
deriving DecidableEq

def AutoCalibrator.calculateThresholds (sq : ℚ → ℚ) (c : AutoCalibrator) :
    Option CalibResult × AutoCalibrator :=
  if c.repsData.length = 0 then (none, c)
  else
    (some
      { success := true
        thresholds :=
          { upwardAcceleration := max 0.4 (listAvg (c.repsData.map (·.maxZ)) -
              sq (listPopVar (c.repsData.map (·.maxZ))) * 0.8)
            downwardAcceleration := min (-0.3) (listAvg (c.repsData.map (·.minZ)) +
              sq (listPopVar (c.repsData.map (·.minZ))) * 0.8)
            minAmplitude := listAvg (c.repsData.map (·.amplitude)) * 0.6
            minRepDuration := 700
            maxRepDuration := 5000
            stableThreshold := 0.25 }
        stats :=
          { repsDetected := c.repsData.length
            avgMaxZ := listAvg (c.repsData.map (·.maxZ))
            avgMinZ := listAvg (c.repsData.map (·.minZ))
            avgAmplitude := listAvg (c.repsData.map (·.amplitude)) } },
     { c with isCalibrating := false })

inductive CalibOut where
  | completed (r : CalibResult)
  | progress (repCount targetReps : ℕ)
deriving DecidableEq

/-- The per-repetition statistics record pushed onto `repsData` when a valid
repetition ends (src/app.js lines 301-307). -/
def movingRecord (crd : CalibRepData) (z t : ℚ) : CalibRepRecord :=
  { maxZ := (crd.push z).maxZ.getD 0
    minZ := (crd.push z).minZ.getD 0
    amplitude := (crd.push z).maxZ.getD 0 - (crd.push z).minZ.getD 0
    duration := t - (crd.push z).startTime.getD 0
    variance := AutoCalibrator.calculateVariance (crd.push z).zValues }

def AutoCalibrator.processValue (sq : ℚ → ℚ) (c : AutoCalibrator) (z timestamp : ℚ) :
    Option CalibOut × AutoCalibrator :=
  if c.isCalibrating = false then (none, c)
  else
    match c.state with
    | .IDLE =>
        if 0.6 < |z| then
          let c1 := { c with
            state := CalibPhase.MOVING
            currentRepData :=
              { maxZ := some z, minZ := some z, zValues := [z], startTime := some timestamp } }
          (some (.progress c1.repCount c1.targetReps), c1)
        else (some (.progress c.repCount c.targetReps), c)
    | .MOVING =>
        let rd := c.currentRepData.push z
        let c1 := { c with currentRepData := rd }
        if |z| < 0.3 ∧ 15 < rd.zValues.length then
          if 500 ≤ timestamp - rd.startTime.getD 0 ∧ timestamp - rd.startTime.getD 0 ≤ 5000 ∧
              0.8 ≤ rd.maxZ.getD 0 - rd.minZ.getD 0 then
            let c2 := { c1 with
              repsData := c1.repsData ++ [movingRecord c.currentRepData z timestamp]
              repCount := c1.repCount + 1 }
            if c2.targetReps ≤ c2.repCount then
              let pr := AutoCalibrator.calculateThresholds sq c2
              (pr.1.map CalibOut.completed, pr.2)
            else
              let c3 := { c2 with
                state := CalibPhase.COOLDOWN
                lastTransitionTime := timestamp }
              (some (.progress c3.repCount c3.targetReps), c3)
          else
            let c3 := { c1 with
              state := CalibPhase.COOLDOWN
              lastTransitionTime := timestamp }
            (some (.progress c3.repCount c3.targetReps), c3)
        else (some (.progress c1.repCount c1.targetReps), c1)
    | .COOLDOWN =>
        if 500 < timestamp - c.lastTransitionTime then
          let c1 := { c with state := CalibPhase.IDLE }
          (some (.progress c1.repCount c1.targetReps), c1)
        else (some (.progress c.repCount c.targetReps), c)

lemma processValue_not_calibrating (sq : ℚ → ℚ) (c : AutoCalibrator) (z t : ℚ)
    (h : c.isCalibrating = false) :
    AutoCalibrator.processValue sq c z t = (none, c) := by
  unfold AutoCalibrator.processValue
  rw [if_pos h]

lemma processValue_MOVING (sq : ℚ → ℚ) (rl : List CalibRepRecord) (rc tr : ℕ)
    (crd : CalibRepData) (ltt z t : ℚ) :
    AutoCalibrator.processValue sq
        (AutoCalibrator.mk rl true rc tr crd CalibPhase.MOVING ltt) z t =
      if |z| < 0.3 ∧ 15 < (crd.push z).zValues.length then
        if 500 ≤ t - (crd.push z).startTime.getD 0 ∧ t - (crd.push z).startTime.getD 0 ≤ 5000 ∧
            0.8 ≤ (crd.push z).maxZ.getD 0 - (crd.push z).minZ.getD 0 then
          if tr ≤ rc + 1 then
            ((AutoCalibrator.calculateThresholds sq
                (AutoCalibrator.mk (rl ++ [movingRecord crd z t]) true (rc + 1) tr (crd.push z)
                  CalibPhase.MOVING ltt)).1.map CalibOut.completed,
             (AutoCalibrator.calculateThresholds sq
                (AutoCalibrator.mk (rl ++ [movingRecord crd z t]) true (rc + 1) tr (crd.push z)
                  CalibPhase.MOVING ltt)).2)
          else
            (some (CalibOut.progress (rc + 1) tr),
             AutoCalibrator.mk (rl ++ [movingRecord crd z t]) true (rc + 1) tr (crd.push z)
               CalibPhase.COOLDOWN t)
        else
          (some (CalibOut.progress rc tr),
           AutoCalibrator.mk rl true rc tr (crd.push z) CalibPhase.COOLDOWN t)
      else
        (some (CalibOut.progress rc tr),
         AutoCalibrator.mk rl true rc tr (crd.push z) CalibPhase.MOVING ltt) := by
  simp only [AutoCalibrator.processValue]
  rw [if_neg (by decide : ¬ (true = false))]

lemma processValue_COOLDOWN (sq : ℚ → ℚ) (rl : List CalibRepRecord) (rc tr : ℕ)
    (crd : CalibRepData) (ltt z t : ℚ) :
    AutoCalibrator.processValue sq
        (AutoCalibrator.mk rl true rc tr crd CalibPhase.COOLDOWN ltt) z t =
      if 500 < t - ltt then
        (some (CalibOut.progress rc tr),
         AutoCalibrator.mk rl true rc tr crd CalibPhase.IDLE ltt)
      else
        (some (CalibOut.progress rc tr),
         AutoCalibrator.mk rl true rc tr crd CalibPhase.COOLDOWN ltt) := by
  simp only [AutoCalibrator.processValue]
  rw [if_neg (by decide : ¬ (true = false))]

/-- A concrete sqrt backend used to instantiate the abstract `Math.sqrt`
parameter on concrete inputs. -/
def sqrtZero : ℚ → ℚ := fun _ => 0

def sampleRecord : CalibRepRecord :=
  { maxZ := 1, minZ := 0, amplitude := 1, duration := 1500, variance := 0 }

/-- A calibrator that has already collected 4 of its 5 target repetitions and
is in MOVING with 15 accumulated samples: the next quiet sample ends the
fifth, final repetition. -/
def calibMovingRepData : CalibRepData :=
  { maxZ := some 1, minZ := some 0, zValues := 1 :: List.replicate 14 0, startTime := some 0 }

def calibMovingState : AutoCalibrator :=
  AutoCalibrator.mk (List.replicate 4 sampleRecord) true 4 5 calibMovingRepData
    CalibPhase.MOVING 0

/-- Claim C3: when the calibrator records its targetReps-th valid repetition,
that very call returns exactly one non-null threshold set — with
`upwardAcceleration = max(0.4, avgMaxZ - 0.8 * stdMaxZ)` (hence at least 0.4),
`downwardAcceleration = min(-0.3, avgMinZ + 0.8 * stdMinZ)` (hence at most
-0.3), `minAmplitude = 0.6 * avgAmplitude`, `minRepDuration = 700`,
`maxRepDuration = 5000`, `stableThreshold = 0.25`, the averages and
population standard deviations taken over the collected per-repetition
records — and sets the calibration-active flag to false, after which every
further call returns null. -/
theorem autoCalibrator_completion (sq : ℚ → ℚ) (c : AutoCalibrator) (z t : ℚ)
    (hcal : c.isCalibrating = true) (hst : c.state = CalibPhase.MOVING)
    (hend : |z| < 0.3 ∧ 15 < (c.currentRepData.push z).zValues.length)
    (hvalid : 500 ≤ t - (c.currentRepData.push z).startTime.getD 0 ∧
        t - (c.currentRepData.push z).startTime.getD 0 ≤ 5000 ∧
        0.8 ≤ (c.currentRepData.push z).maxZ.getD 0 - (c.currentRepData.push z).minZ.getD 0)
    (htarget : c.targetReps ≤ c.repCount + 1) :
    (AutoCalibrator.processValue sq c z t).1 =
      some (CalibOut.completed
        { success := true
          thresholds :=
            { upwardAcceleration := max 0.4
                (listAvg ((c.repsData ++ [movingRecord c.currentRepData z t]).map (·.maxZ)) -
                 sq (listPopVar ((c.repsData ++ [movingRecord c.currentRepData z t]).map (·.maxZ))) * 0.8)
              downwardAcceleration := min (-0.3)
                (listAvg ((c.repsData ++ [movingRecord c.currentRepData z t]).map (·.minZ)) +
                 sq (listPopVar ((c.repsData ++ [movingRecord c.currentRepData z t]).map (·.minZ))) * 0.8)
              minAmplitude :=
                listAvg ((c.repsData ++ [movingRecord c.currentRepData z t]).map (·.amplitude)) * 0.6
              minRepDuration := 700
              maxRepDuration := 5000
              stableThreshold := 0.25 }
          stats :=
            { repsDetected := (c.repsData ++ [movingRecord c.currentRepData z t]).length
              avgMaxZ := listAvg ((c.repsData ++ [movingRecord c.currentRepData z t]).map (·.maxZ))
              avgMinZ := listAvg ((c.repsData ++ [movingRecord c.currentRepData z t]).map (·.minZ))
              avgAmplitude :=
                listAvg ((c.repsData ++ [movingRecord c.currentRepData z t]).map (·.amplitude)) } })
    ∧ (AutoCalibrator.processValue sq c z t).2.isCalibrating = false
    ∧ (∀ r : CalibResult,
        (AutoCalibrator.processValue sq c z t).1 = some (CalibOut.completed r) →
        0.4 ≤ r.thresholds.upwardAcceleration ∧ r.thresholds.downwardAcceleration ≤ -0.3)
    ∧ (∀ z2 t2 : ℚ,
        AutoCalibrator.processValue sq ((AutoCalibrator.processValue sq c z t).2) z2 t2 =
          (none, (AutoCalibrator.processValue sq c z t).2)) := by
  obtain ⟨rl, ical, rc, tr, crd, st, ltt⟩ := c
  dsimp only at hcal hst hend hvalid htarget ⊢
  subst hcal
  subst hst
  rw [processValue_MOVING, if_pos hend, if_pos hvalid, if_pos htarget]
  have hne : ¬ ((AutoCalibrator.mk (rl ++ [movingRecord crd z t]) true (rc + 1) tr (crd.push z)
      CalibPhase.MOVING ltt).repsData.length = 0) := by simp
  simp only [AutoCalibrator.calculateThresholds]
  rw [if_neg hne]
  dsimp only [Option.map]
  refine ⟨rfl, rfl, ?_, ?_⟩
  · intro r hr
    rw [Option.some.injEq, CalibOut.completed.injEq] at hr
    subst hr
    exact ⟨le_max_left _ _, min_le_left _ _⟩
  · intro z2 t2
    exact processValue_not_calibrating sq _ z2 t2 rfl

/-- Witness for C3 at a concrete fifth valid repetition: the completing call
flips the calibration-active flag off, and the returned thresholds respect
the 0.4 / -0.3 clamps. -/
theorem autoCalibrator_completion_witness :
    (AutoCalibrator.processValue sqrtZero calibMovingState 0 1500).2.isCalibrating = false
    ∧ (∀ r : CalibResult,
        (AutoCalibrator.processValue sqrtZero calibMovingState 0 1500).1 =
          some (CalibOut.completed r) →
        0.4 ≤ r.thresholds.upwardAcceleration ∧ r.thresholds.downwardAcceleration ≤ -0.3) :=
  ⟨(autoCalibrator_completion sqrtZero calibMovingState 0 1500 rfl rfl
      ⟨by norm_num, by simp [calibMovingState, calibMovingRepData, CalibRepData.push]⟩
      (by constructor
          · simp [calibMovingState, calibMovingRepData, CalibRepData.push]
            norm_num
          · constructor
            · simp [calibMovingState, calibMovingRepData, CalibRepData.push]
              norm_num
            · simp [calibMovingState, calibMovingRepData, CalibRepData.push, max_def, min_def]
              norm_num)
      (by norm_num [calibMovingState])).2.1,
   (autoCalibrator_completion sqrtZero calibMovingState 0 1500 rfl rfl
      ⟨by norm_num, by simp [calibMovingState, calibMovingRepData, CalibRepData.push]⟩
      (by constructor
          · simp [calibMovingState, calibMovingRepData, CalibRepData.push]
            norm_num
          · constructor
            · simp [calibMovingState, calibMovingRepData, CalibRepData.push]
              norm_num
            · simp [calibMovingState, calibMovingRepData, CalibRepData.push, max_def, min_def]
              norm_num)
      (by norm_num [calibMovingState])).2.2.1⟩

/-- Claim C7 counterexample: on the sample that records the final
(target-count-reaching) repetition — here the calibrator is in MOVING, the
end-of-movement condition holds (|0| < 0.3 with 16 accumulated samples) and
the candidate is valid — `processValue` does NOT transition to COOLDOWN: it
returns the thresholds early and leaves the state in MOVING. -/
theorem final_rep_not_cooldown :
    calibMovingState.state = CalibPhase.MOVING
    ∧ calibMovingState.isCalibrating = true
    ∧ |(0 : ℚ)| < 0.3
    ∧ 15 < (calibMovingState.currentRepData.push 0).zValues.length
    ∧ (AutoCalibrator.processValue sqrtZero calibMovingState 0 1500).2.state ≠
        CalibPhase.COOLDOWN
    ∧ (AutoCalibrator.processValue sqrtZero calibMovingState 0 1500).2.state =
        CalibPhase.MOVING := by
  refine ⟨rfl, rfl, by norm_num, by simp [calibMovingState, calibMovingRepData, CalibRepData.push], ?_, ?_⟩
  all_goals
    rw [show calibMovingState = AutoCalibrator.mk (List.replicate 4 sampleRecord) true 4 5
        calibMovingRepData CalibPhase.MOVING 0 from rfl,
      processValue_MOVING,
      if_pos (⟨by norm_num, by simp [calibMovingRepData, CalibRepData.push]⟩ :
        |(0 : ℚ)| < 0.3 ∧ 15 < (calibMovingRepData.push 0).zValues.length),
      if_pos (by
        refine ⟨?_, ?_, ?_⟩
        · simp [calibMovingRepData, CalibRepData.push]
          norm_num
        · simp [calibMovingRepData, CalibRepData.push]
          norm_num
        · simp [calibMovingRepData, CalibRepData.push, max_def, min_def]
          norm_num),
      if_pos (by norm_num : (5 : ℕ) ≤ 4 + 1)]
    simp only [AutoCalibrator.calculateThresholds]
    rw [if_neg (by simp)]
    all_goals simp

/-- Claim C7 (amended): a MOVING sample meeting the end-of-movement condition
(|v| < 0.3 and more than 15 accumulated samples) transitions the calibrator
to COOLDOWN whether or not the candidate repetition passed the
duration/amplitude gates, EXCEPT on the call that records the final
(target-count-reaching) repetition, where the thresholds are returned
immediately and the state is left in MOVING; from COOLDOWN the machine
returns to IDLE exactly when more than 500 ms have elapsed since the last
transition. -/
theorem moving_end_transition (sq : ℚ → ℚ) (c : AutoCalibrator) (z t : ℚ)
    (hcal : c.isCalibrating = true) (hst : c.state = CalibPhase.MOVING)
    (hend : |z| < 0.3 ∧ 15 < (c.currentRepData.push z).zValues.length) :
    ((¬ (500 ≤ t - (c.currentRepData.push z).startTime.getD 0 ∧
          t - (c.currentRepData.push z).startTime.getD 0 ≤ 5000 ∧
          0.8 ≤ (c.currentRepData.push z).maxZ.getD 0 - (c.currentRepData.push z).minZ.getD 0)
        ∨ c.repCount + 1 < c.targetReps →
        (AutoCalibrator.processValue sq c z t).2.state = CalibPhase.COOLDOWN
        ∧ (AutoCalibrator.processValue sq c z t).2.lastTransitionTime = t)
    ∧ ((500 ≤ t - (c.currentRepData.push z).startTime.getD 0 ∧
          t - (c.currentRepData.push z).startTime.getD 0 ≤ 5000 ∧
          0.8 ≤ (c.currentRepData.push z).maxZ.getD 0 - (c.currentRepData.push z).minZ.getD 0) →
        c.targetReps ≤ c.repCount + 1 →
        (AutoCalibrator.processValue sq c z t).2.state = CalibPhase.MOVING)
    ∧ (∀ c2 : AutoCalibrator, ∀ z2 t2 : ℚ,
        c2.isCalibrating = true → c2.state = CalibPhase.COOLDOWN →
        ((AutoCalibrator.processValue sq c2 z2 t2).2.state = CalibPhase.IDLE ↔
          500 < t2 - c2.lastTransitionTime))) := by
  obtain ⟨rl, ical, rc, tr, crd, st, ltt⟩ := c
  dsimp only at hcal hst hend ⊢
  subst hcal
  subst hst
  refine ⟨?_, ?_, ?_⟩
  · intro hinv
    rw [processValue_MOVING, if_pos hend]
    by_cases hB : 500 ≤ t - (crd.push z).startTime.getD 0 ∧
        t - (crd.push z).startTime.getD 0 ≤ 5000 ∧
        0.8 ≤ (crd.push z).maxZ.getD 0 - (crd.push z).minZ.getD 0
    · have hC : ¬ (tr ≤ rc + 1) := by
        rcases hinv with hinv | hinv
        · exact absurd hB hinv
        · omega
      rw [if_pos hB, if_neg hC]
      exact ⟨rfl, rfl⟩
    · rw [if_neg hB]
      exact ⟨rfl, rfl⟩
  · intro hB hC
    rw [processValue_MOVING, if_pos hend, if_pos hB, if_pos hC]
    simp only [AutoCalibrator.calculateThresholds]
    rw [if_neg (by simp :
      ¬ ((AutoCalibrator.mk (rl ++ [movingRecord crd z t]) true (rc + 1) tr (crd.push z)
        CalibPhase.MOVING ltt).repsData.length = 0))]
  · intro c2 z2 t2 hcal2 hst2
    obtain ⟨rl2, ical2, rc2, tr2, crd2, st2, ltt2⟩ := c2
    dsimp only at hcal2 hst2 ⊢
    subst hcal2
    subst hst2
    rw [processValue_COOLDOWN]
    split_ifs with h
    · simpa using h
    · simpa using h

/-- Witness for the amended C7: at a concrete invalid candidate (too short a
movement) the machine goes to COOLDOWN, and a COOLDOWN sample 600 ms later
returns to IDLE. -/
theorem moving_end_transition_witness :
    (AutoCalibrator.processValue sqrtZero
        (AutoCalibrator.mk [] true 0 5 calibMovingRepData CalibPhase.MOVING 0)
        0 400).2.state = CalibPhase.COOLDOWN :=
  ((moving_end_transition sqrtZero
      (AutoCalibrator.mk [] true 0 5 calibMovingRepData CalibPhase.MOVING 0) 0 400 rfl rfl
      ⟨by norm_num, by simp [calibMovingRepData, CalibRepData.push]⟩).1
    (Or.inl (by
      intro hB
      have h1 := hB.1
      simp [calibMovingRepData, CalibRepData.push] at h1
      norm_num at h1))).1

/-! ### FFTCadenceEstimator (src/app.js lines 115-236)

`fft.js realTransform` is abstracted as `fft : List ℚ → ℕ → ℚ × ℚ` taking the
windowed time-domain buffer and returning `(out[2k], out[2k+1])` for bin `k`;
`Math.cos` is abstracted through `cosTwoPi x = cos (2 π x)` used by the Hann
window table.  No verified property depends on either backend's values. -/

structure CadenceOut where
  frequencyHz : ℚ
  power : ℚ
deriving DecidableEq

structure FFTCadenceEstimator where
  fftSize : ℕ
  sampleRateHz : ℚ
  fMinHz : ℚ
  fMaxHz : ℚ
  updateEvery : ℕ
  smoothingAlpha : ℚ
  index : ℕ
  filled : Bool
  samplesSeen : ℕ
  ring : List ℚ
  window : List ℚ
  lastFrequencyHz : ℚ
  lastPower : ℚ
  fftAvailable : Bool
deriving DecidableEq

def createHannWindow (cosTwoPi : ℚ → ℚ) (n : ℕ) : List ℚ :=
  if n ≤ 1 then List.replicate n 0
  else (List.range n).map fun i => 0.5 * (1 - cosTwoPi ((i : ℚ) / ((n : ℚ) - 1)))

def FFTCadenceEstimator.new (cosTwoPi : ℚ → ℚ) (fftSize : ℕ := 256)
    (sampleRateHz : ℚ := 30) (fMinHz : ℚ := 0.2) (fMaxHz : ℚ := 5.0)
    (updateEvery : ℕ := 6) (smoothingAlpha : ℚ := 0.35) (fftAvailable : Bool := true) :
    FFTCadenceEstimator :=
  { fftSize := fftSize
    sampleRateHz := sampleRateHz
    fMinHz := fMinHz
    fMaxHz := fMaxHz
    updateEvery := max 1 updateEvery
    smoothingAlpha := min 1 (max 0 smoothingAlpha)
    index := 0
    filled := false
    samplesSeen := 0
    ring := List.replicate fftSize 0
    window := createHannWindow cosTwoPi fftSize
    lastFrequencyHz := 0
    lastPower := 0
    fftAvailable := fftAvailable }

def FFTCadenceEstimator.setSampleRate (e : FFTCadenceEstimator) (sampleRateHz : ℚ) :
    FFTCadenceEstimator :=
  { e with sampleRateHz := max 1 sampleRateHz }

def FFTCadenceEstimator.reset (e : FFTCadenceEstimator) : FFTCadenceEstimator :=
  { e with index := 0, filled := false, samplesSeen := 0
           ring := List.replicate e.fftSize 0, lastFrequencyHz := 0, lastPower := 0 }

def FFTCadenceEstimator.addSample (fft : List ℚ → ℕ → ℚ × ℚ) (e : FFTCadenceEstimator)
    (value : ℚ) : Option CadenceOut × FFTCadenceEstimator :=
  if e.fftAvailable = false then (none, e)
  else
    let e1 := { e with
      ring := e.ring.set e.index value
      index := (e.index + 1) % e.fftSize
      filled := e.filled || ((e.index + 1) % e.fftSize == 0)
      samplesSeen := e.samplesSeen + 1 }
    if e1.filled = false then (none, e1)
    else if ¬ (e1.samplesSeen % e1.updateEvery = 0) then (none, e1)
    else
      let timeDomain0 := (List.range e1.fftSize).map fun i =>
        e1.ring.getD ((e1.index + i) % e1.fftSize) 0
      let mean := timeDomain0.sum / (e1.fftSize : ℚ)
      let timeDomain := (List.range e1.fftSize).map fun i =>
        (timeDomain0.getD i 0 - mean) * e1.window.getD i 0
      let out := fft timeDomain
      let binHz := e1.sampleRateHz / (e1.fftSize : ℚ)
      let kMin : ℤ := max 1 ⌈e1.fMinHz / binHz⌉
      let kMax : ℤ := min ((e1.fftSize / 2 : ℕ) : ℤ) ⌊e1.fMaxHz / binHz⌋
      if kMax ≤ kMin then (none, e1)
      else
        let mag2 : ℤ → ℚ := fun k => (out k.toNat).1 * (out k.toNat).1 +
          (out k.toNat).2 * (out k.toNat).2
        let best := ((List.range (kMax - kMin + 1).toNat).map fun j => kMin + (j : ℤ)).foldl
          (fun (b : ℤ × Option ℚ) k =>
            match b.2 with
            | none => (k, some (mag2 k))
            | some m => if m < mag2 k then (k, some (mag2 k)) else b)
          (kMin, none)
        let bestK := best.1
        let bestMag2 := best.2.getD 0
        let freqHz := (bestK : ℚ) * binHz
        let smoothedHz := if e1.lastFrequencyHz ≠ 0 then
            e1.smoothingAlpha * freqHz + (1 - e1.smoothingAlpha) * e1.lastFrequencyHz
          else freqHz
        let e2 := { e1 with lastFrequencyHz := smoothedHz, lastPower := bestMag2 }
        (some { frequencyHz := smoothedHz, power := bestMag2 }, e2)

def runEstimator (fft : List ℚ → ℕ → ℚ × ℚ) (e : FFTCadenceEstimator) (vs : List ℚ) :
    FFTCadenceEstimator :=
  vs.foldl (fun a v => (a.addSample fft v).2) e

lemma addSample_advance (fft : List ℚ → ℕ → ℚ × ℚ) (e : FFTCadenceEstimator) (value : ℚ)
    (h : e.fftAvailable = true) :
    (e.addSample fft value).2.samplesSeen = e.samplesSeen + 1
    ∧ (e.addSample fft value).2.index = (e.index + 1) % e.fftSize
    ∧ (e.addSample fft value).2.filled = (e.filled || ((e.index + 1) % e.fftSize == 0))
    ∧ (e.addSample fft value).2.updateEvery = e.updateEvery
    ∧ (e.addSample fft value).2.fftSize = e.fftSize
    ∧ (e.addSample fft value).2.fftAvailable = true
    ∧ (e.addSample fft value).2.sampleRateHz = e.sampleRateHz
    ∧ (e.addSample fft value).2.fMinHz = e.fMinHz
    ∧ (e.addSample fft value).2.fMaxHz = e.fMaxHz := by
  simp only [FFTCadenceEstimator.addSample]
  rw [if_neg (by simp [h])]
  split_ifs <;> exact ⟨rfl, rfl, rfl, rfl, rfl, h, rfl, rfl, rfl⟩

lemma addSample_some_conditions (fft : List ℚ → ℕ → ℚ × ℚ) (e : FFTCadenceEstimator)
    (value : ℚ) (h : e.fftAvailable = true) :
    (e.addSample fft value).1 ≠ none →
      (e.filled || ((e.index + 1) % e.fftSize == 0)) = true
      ∧ (e.samplesSeen + 1) % e.updateEvery = 0 := by
  simp only [FFTCadenceEstimator.addSample]
  rw [if_neg (by simp [h])]
  split_ifs with h1 h2 h3 h4 <;> intro hne <;>
    first
    | exact absurd rfl hne
    | exact ⟨by
        cases hb : (e.filled || ((e.index + 1) % e.fftSize == 0)) with
        | false => exact absurd hb h1
        | true => rfl,
      by simpa using h2⟩

lemma mod_succ_shift (len N : ℕ) : (len % N + 1) % N = (len + 1) % N := by
  rcases Nat.eq_zero_or_pos N with h0 | h0
  · subst h0; simp [Nat.mod_zero]
  · by_cases hone : N = 1
    · subst hone; simp [Nat.mod_one]
    · have h2 : 1 % N = 1 := Nat.mod_eq_of_lt (by omega)
      rw [Nat.add_mod len 1 N, h2]

lemma fill_step (N len : ℕ) :
    ((0 < N ∧ N ≤ len) ∨ (len + 1) % N = 0) ↔ (0 < N ∧ N ≤ len + 1) := by
  constructor
  · rintro (⟨ha, hb⟩ | h)
    · exact ⟨ha, by omega⟩
    · have hN : 0 < N := by
        rcases Nat.eq_zero_or_pos N with h0 | h0
        · subst h0; simp [Nat.mod_zero] at h
        · exact h0
      exact ⟨hN, Nat.le_of_dvd (by omega) (Nat.dvd_of_mod_eq_zero h)⟩
  · rintro ⟨ha, hb⟩
    rcases Nat.lt_or_ge len N with hlt | hge
    · right
      have hEq : len + 1 = N := by omega
      rw [hEq, Nat.mod_self]
    · exact Or.inl ⟨ha, hge⟩

lemma runEstimator_fields (cosTwoPi : ℚ → ℚ) (fft : List ℚ → ℕ → ℚ × ℚ) (N : ℕ)
    (rate fmin fmax : ℚ) (u : ℕ) (α : ℚ) (vs : List ℚ) :
    (runEstimator fft (FFTCadenceEstimator.new cosTwoPi N rate fmin fmax u α true) vs).fftAvailable = true
    ∧ (runEstimator fft (FFTCadenceEstimator.new cosTwoPi N rate fmin fmax u α true) vs).fftSize = N
    ∧ (runEstimator fft (FFTCadenceEstimator.new cosTwoPi N rate fmin fmax u α true) vs).updateEvery = max 1 u
    ∧ (runEstimator fft (FFTCadenceEstimator.new cosTwoPi N rate fmin fmax u α true) vs).samplesSeen = vs.length
    ∧ (runEstimator fft (FFTCadenceEstimator.new cosTwoPi N rate fmin fmax u α true) vs).index = vs.length % N
    ∧ ((runEstimator fft (FFTCadenceEstimator.new cosTwoPi N rate fmin fmax u α true) vs).filled = true
        ↔ (0 < N ∧ N ≤ vs.length)) := by
  induction vs using List.reverseRecOn with
  | nil =>
      refine ⟨rfl, rfl, rfl, rfl, by simp [runEstimator, FFTCadenceEstimator.new], ?_⟩
      simp only [runEstimator, List.foldl_nil, FFTCadenceEstimator.new]
      constructor
      · intro h
        simp at h
      · intro h
        exfalso
        simp only [List.length_nil] at h
        omega
  | append_singleton xs x ih =>
      obtain ⟨ha, hsz, hu, hseen, hidx, hfill⟩ := ih
      have hrun : runEstimator fft (FFTCadenceEstimator.new cosTwoPi N rate fmin fmax u α true)
          (xs ++ [x]) =
          ((runEstimator fft (FFTCadenceEstimator.new cosTwoPi N rate fmin fmax u α true)
            xs).addSample fft x).2 := by
        simp [runEstimator, List.foldl_append]
      have hadv := addSample_advance fft _ x ha
      rw [hrun]
      refine ⟨hadv.2.2.2.2.2.1, by rw [hadv.2.2.2.2.1, hsz], by rw [hadv.2.2.2.1, hu],
        by rw [hadv.1, hseen]; simp, ?_, ?_⟩
      · rw [hadv.2.1, hidx, hsz, mod_succ_shift]
        simp
      · rw [hadv.2.2.1, hidx, hsz]
        simp only [List.length_append, List.length_cons, List.length_nil, Bool.or_eq_true,
          beq_iff_eq, mod_succ_shift]
        rw [← fill_step N xs.length]
        rw [← hfill]

/-- Claim C5: with the FFT backend available, `addSample` on a freshly
constructed estimator returns null unconditionally on every call before the
ring buffer has been filled once (before the write cursor wraps after
`fftSize` samples), and after the first fill it returns a non-null estimate
at most once every `updateEvery` consecutive calls — non-null only on calls
whose 1-based index is a multiple of `updateEvery` — returning null on all
other calls. -/
theorem cadence_null_until_filled_and_throttled (cosTwoPi : ℚ → ℚ)
    (fft : List ℚ → ℕ → ℚ × ℚ) (N : ℕ) (rate fmin fmax : ℚ) (u : ℕ) (α : ℚ)
    (vs : List ℚ) (v : ℚ) :
    (vs.length + 1 < N →
      (((runEstimator fft (FFTCadenceEstimator.new cosTwoPi N rate fmin fmax u α true)
        vs).addSample fft v).1 = none))
    ∧ (¬ ((vs.length + 1) % (max 1 u) = 0) →
      (((runEstimator fft (FFTCadenceEstimator.new cosTwoPi N rate fmin fmax u α true)
        vs).addSample fft v).1 = none))
    ∧ ((((runEstimator fft (FFTCadenceEstimator.new cosTwoPi N rate fmin fmax u α true)
        vs).addSample fft v).1 ≠ none) →
      N ≤ vs.length + 1 ∧ (vs.length + 1) % (max 1 u) = 0) := by
  obtain ⟨ha, hsz, hu, hseen, hidx, hfill⟩ :=
    runEstimator_fields cosTwoPi fft N rate fmin fmax u α vs
  have hcond := addSample_some_conditions fft _ v ha
  have hmain : (((runEstimator fft (FFTCadenceEstimator.new cosTwoPi N rate fmin fmax u α true)
      vs).addSample fft v).1 ≠ none) →
      N ≤ vs.length + 1 ∧ (vs.length + 1) % (max 1 u) = 0 := by
    intro hne
    obtain ⟨hfilled, hdue⟩ := hcond hne
    rw [hseen, hu] at hdue
    rw [hidx, hsz] at hfilled
    refine ⟨?_, hdue⟩
    rw [Bool.or_eq_true, beq_iff_eq, mod_succ_shift] at hfilled
    have := (fill_step N vs.length).1 (by
      rcases hfilled with hf | hf
      · exact Or.inl (hfill.1 hf)
      · exact Or.inr hf)
    exact this.2
  refine ⟨?_, ?_, hmain⟩
  · intro hlt
    by_contra hne
    have := (hmain hne).1
    omega
  · intro hmod
    by_contra hne
    exact hmod (hmain hne).2

def fftZero : List ℚ → ℕ → ℚ × ℚ := fun _ _ => (0, 0)

def cosOne : ℚ → ℚ := fun _ => 1

/-- Witness for C5: with `fftSize = 4` and `updateEvery = 2`, the third call
on a fresh estimator (buffer not yet full) returns null. -/
theorem cadence_null_witness :
    2 + 1 < 4
    ∧ (((runEstimator fftZero (FFTCadenceEstimator.new cosOne 4 30 0.2 5 2 0.35 true)
        [0, 0]).addSample fftZero 0).1 = none) :=
  ⟨by norm_num,
   (cadence_null_until_filled_and_throttled cosOne fftZero 4 30 0.2 5 2 0.35 [0, 0] 0).1
     (by norm_num)⟩

/-- Claim C9: when the bin index for `fMaxHz` is at most the bin index for
`fMinHz` (degenerate frequency band, e.g. too-low sample rate), `addSample`
returns null rather than selecting a bin from an empty range, and
`lastFrequencyHz` and `lastPower` are left unchanged by that call. -/
theorem degenerate_band_null (fft : List ℚ → ℕ → ℚ × ℚ) (e : FFTCadenceEstimator) (v : ℚ)
    (hdeg : min ((e.fftSize / 2 : ℕ) : ℤ) ⌊e.fMaxHz / (e.sampleRateHz / (e.fftSize : ℚ))⌋ ≤
        max 1 ⌈e.fMinHz / (e.sampleRateHz / (e.fftSize : ℚ))⌉) :
    (e.addSample fft v).1 = none
    ∧ (e.addSample fft v).2.lastFrequencyHz = e.lastFrequencyHz
    ∧ (e.addSample fft v).2.lastPower = e.lastPower := by
  simp only [FFTCadenceEstimator.addSample]
  split_ifs with h1 h2 h3 <;> exact ⟨rfl, rfl, rfl⟩

/-- Witness for C9: `fftSize = 2` at 30 Hz gives `binHz = 15`, so the 0.2-5 Hz
band maps to `kMax = min 1 ⌊1/3⌋ = 0 ≤ 1 ≤ kMin`; the call returns null and
leaves the last estimate untouched. -/
theorem degenerate_band_null_witness :
    ((FFTCadenceEstimator.new cosOne 2 30 0.2 5 6 0.35 true).addSample fftZero 0).1 = none
    ∧ ((FFTCadenceEstimator.new cosOne 2 30 0.2 5 6 0.35 true).addSample fftZero
        0).2.lastFrequencyHz = 0 :=
  ⟨(degenerate_band_null fftZero (FFTCadenceEstimator.new cosOne 2 30 0.2 5 6 0.35 true) 0
      (by
        have hfl : ⌊(5 : ℚ) / (30 / ((2 : ℕ) : ℚ))⌋ = 0 := by
          rw [Int.floor_eq_zero_iff]
          constructor <;> norm_num
        show min (((2 / 2 : ℕ) : ℤ)) ⌊(5 : ℚ) / (30 / ((2 : ℕ) : ℚ))⌋ ≤
          max 1 ⌈(0.2 : ℚ) / (30 / ((2 : ℕ) : ℚ))⌉
        calc min (((2 / 2 : ℕ) : ℤ)) ⌊(5 : ℚ) / (30 / ((2 : ℕ) : ℚ))⌋ ≤
              ⌊(5 : ℚ) / (30 / ((2 : ℕ) : ℚ))⌋ := min_le_right _ _
          _ = 0 := hfl
          _ ≤ 1 := by norm_num
          _ ≤ max 1 ⌈(0.2 : ℚ) / (30 / ((2 : ℕ) : ℚ))⌉ := le_max_left _ _)).1,
   (degenerate_band_null fftZero (FFTCadenceEstimator.new cosOne 2 30 0.2 5 6 0.35 true) 0
      (by
        have hfl : ⌊(5 : ℚ) / (30 / ((2 : ℕ) : ℚ))⌋ = 0 := by
          rw [Int.floor_eq_zero_iff]
          constructor <;> norm_num
        show min (((2 / 2 : ℕ) : ℤ)) ⌊(5 : ℚ) / (30 / ((2 : ℕ) : ℚ))⌋ ≤
          max 1 ⌈(0.2 : ℚ) / (30 / ((2 : ℕ) : ℚ))⌉
        calc min (((2 / 2 : ℕ) : ℤ)) ⌊(5 : ℚ) / (30 / ((2 : ℕ) : ℚ))⌋ ≤
              ⌊(5 : ℚ) / (30 / ((2 : ℕ) : ℚ))⌋ := min_le_right _ _
          _ = 0 := hfl
          _ ≤ 1 := by norm_num
          _ ≤ max 1 ⌈(0.2 : ℚ) / (30 / ((2 : ℕ) : ℚ))⌉ := le_max_left _ _)).2.1⟩

/-! ### detectVerticalAxis (src/app.js lines 1065-1107)

The asynchronous sample collection and the 2-second timeout fallback are
platform I/O; modelled here is the resolution step once `SAMPLES_NEEDED`
valid samples (each axis component non-null) have been collected: absolute
values are accumulated per axis and the averages compared. -/

inductive Axis where
  | x
  | y
  | z
deriving DecidableEq

def SAMPLES_NEEDED : ℕ := 5

def avgAbsX (samples : List (ℚ × ℚ × ℚ)) : ℚ :=
  (samples.map fun s => |s.1|).sum / (SAMPLES_NEEDED : ℚ)

def avgAbsY (samples : List (ℚ × ℚ × ℚ)) : ℚ :=
  (samples.map fun s => |s.2.1|).sum / (SAMPLES_NEEDED : ℚ)

def avgAbsZ (samples : List (ℚ × ℚ × ℚ)) : ℚ :=
  (samples.map fun s => |s.2.2|).sum / (SAMPLES_NEEDED : ℚ)

def detectVerticalAxis (samples : List (ℚ × ℚ × ℚ)) : Axis :=
  if avgAbsX samples ≥ avgAbsY samples ∧ avgAbsX samples ≥ avgAbsZ samples then Axis.x
  else if avgAbsY samples ≥ avgAbsX samples ∧ avgAbsY samples ≥ avgAbsZ samples then Axis.y
  else Axis.z

/-- Claim C8: once the 5 valid samples are collected, the detected axis is
the one whose accumulated average absolute value is highest, with exact ties
broken by the greater-or-equal comparisons checked in the fixed priority
order x, then y, then z (earlier axes win ties); in particular for average
absolute values 2.0 / 1.0 / 0.5 the result is the x axis. -/
theorem axis_selection_priority (samples : List (ℚ × ℚ × ℚ)) :
    ((detectVerticalAxis samples = Axis.x ↔
        avgAbsX samples = max (avgAbsX samples) (max (avgAbsY samples) (avgAbsZ samples)))
      ∧ (detectVerticalAxis samples = Axis.y ↔
        avgAbsX samples ≠ max (avgAbsX samples) (max (avgAbsY samples) (avgAbsZ samples))
        ∧ avgAbsY samples = max (avgAbsX samples) (max (avgAbsY samples) (avgAbsZ samples)))
      ∧ (detectVerticalAxis samples = Axis.z ↔
        avgAbsX samples ≠ max (avgAbsX samples) (max (avgAbsY samples) (avgAbsZ samples))
        ∧ avgAbsY samples ≠ max (avgAbsX samples) (max (avgAbsY samples) (avgAbsZ samples))
        ∧ avgAbsZ samples = max (avgAbsX samples) (max (avgAbsY samples) (avgAbsZ samples))))
    ∧ detectVerticalAxis (List.replicate 5 (2, 1, 0.5)) = Axis.x := by
  constructor
  · unfold detectVerticalAxis
    split_ifs with h1 h2
    · have hM : max (avgAbsX samples) (max (avgAbsY samples) (avgAbsZ samples))
          = avgAbsX samples := max_eq_left (max_le h1.1 h1.2)
      refine ⟨by simp [hM], by simp [hM], by simp [hM]⟩
    · have hM : max (avgAbsX samples) (max (avgAbsY samples) (avgAbsZ samples))
          = avgAbsY samples := by
        rw [max_eq_left h2.2, max_eq_right h2.1]
      have hab : ¬ avgAbsX samples = avgAbsY samples := by
        intro he
        exact h1 ⟨le_of_eq he.symm, by rw [he]; exact h2.2⟩
      refine ⟨by simp [hM, hab], by simp [hM, hab], by simp [hM]⟩
    · have h3 : avgAbsX samples < avgAbsY samples ∨ avgAbsX samples < avgAbsZ samples := by
        by_contra hcon
        push_neg at hcon
        exact h1 ⟨hcon.1, hcon.2⟩
      have h4 : avgAbsY samples < avgAbsX samples ∨ avgAbsY samples < avgAbsZ samples := by
        by_contra hcon
        push_neg at hcon
        exact h2 ⟨hcon.1, hcon.2⟩
      have hac : avgAbsX samples < avgAbsZ samples := by
        rcases h3 with h3 | h3 <;> rcases h4 with h4 | h4 <;> linarith
      have hbc : avgAbsY samples < avgAbsZ samples := by
        rcases h3 with h3 | h3 <;> rcases h4 with h4 | h4 <;> linarith
      have hM : max (avgAbsX samples) (max (avgAbsY samples) (avgAbsZ samples))
          = avgAbsZ samples := by
        rw [max_eq_right hbc.le, max_eq_right hac.le]
      refine ⟨by simp [hM, hac.ne], by simp [hM, hbc.ne], by simp [hM, hac.ne, hbc.ne]⟩
  · unfold detectVerticalAxis
    rw [if_pos]
    constructor <;>
      · simp only [avgAbsX, avgAbsY, avgAbsZ, SAMPLES_NEEDED, List.map_replicate,
          List.sum_replicate]
        norm_num [abs_of_nonneg]

end Accel
